import Mathlib

/-!
Verification of the rust-os kernel sources.

This file shallowly embeds the data structures and operations of the
repository (IPv4 / UDP / TCP / ICMP / ARP packet handling, the cooperative
scheduler, the boot-info frame allocator and the program loader) as
executable Lean definitions, translated clause by clause from the Rust
sources, and proves or refutes the stated properties about them.

Machine integers are modelled as `Nat` with explicit `% 2^w` reductions at
the points where the Rust code truncates (`as u16`, wrapping `fetch_sub`,
and so on).  Fallible Rust functions return `Option` or `Except`; functions
that write to the network driver additionally return the list of values
handed to `driver.send`.
-/

namespace RustOS

/-- Wrapping 64-bit addition (`u64`/`usize` `+` with overflow wrap). -/
def wadd64 (a b : Nat) : Nat := (a + b) % 2 ^ 64

/-- Wrapping 64-bit subtraction (`u64`/`usize` `-` with overflow wrap). -/
def wsub64 (a b : Nat) : Nat := (a + (2 ^ 64 - b % 2 ^ 64)) % 2 ^ 64

/-- Big-endian bytes of a `u16` (`u16::to_be_bytes`). -/
def be16 (x : Nat) : List Nat := [x / 256 % 256, x % 256]

/-- Big-endian bytes of a `u32` (`u32::to_be_bytes`). -/
def be32 (x : Nat) : List Nat :=
  [x / 2 ^ 24 % 256, x / 2 ^ 16 % 256, x / 256 % 256, x % 256]

/-- One-step-bounded iteration of the carry-folding loop body
`sum = (sum & 0xFFFF) + (sum >> 16)`.  The loop strictly decreases `sum`,
so `fuel := s` always suffices; structural recursion keeps the definition
kernel-reducible. -/
def foldCarryAux : Nat → Nat → Nat
  | 0, s => s
  | fuel + 1, s => if s < 65536 then s else foldCarryAux fuel (s % 65536 + s / 65536)

/-- The carry-folding loop shared by the IP/UDP/TCP checksum routines:
`while (sum >> 16) != 0 { sum = (sum & 0xFFFF) + (sum >> 16); }`
(the UDP variant's guard `sum > 0xFFFF` is the same condition). -/
def foldCarry (s : Nat) : Nat := foldCarryAux s s

/-- Sum of big-endian 16-bit words of a byte list, pairing bytes from the
left and padding a trailing odd byte with zero (as `chunks(2)` does; the
IP header loop reads exactly ten pairs, which agrees on 20-byte inputs). -/
def sum16 : List Nat → Nat
  | [] => 0
  | [b] => b * 256
  | b1 :: b2 :: rest => b1 * 256 + b2 + sum16 rest

/-- `!sum as u16` applied to a folded `u32` sum. -/
def onesComplement16 (s : Nat) : Nat := (2 ^ 32 - 1 - s) % 65536

theorem foldCarryAux_step (fuel s : Nat) (h : 65536 ≤ s) :
    s % 65536 + s / 65536 < s ∧ (fuel + 1 ≤ fuel + 1) := by
  have h1 : 1 ≤ s / 65536 := Nat.one_le_div_iff (by norm_num) |>.mpr h
  omega

theorem foldCarryAux_lt (fuel : Nat) : ∀ s, s ≤ fuel → foldCarryAux fuel s < 65536 := by
  induction fuel with
  | zero => intro s h; interval_cases s; simp [foldCarryAux]
  | succ fuel ih =>
    intro s h
    rw [foldCarryAux]
    split
    · assumption
    · exact ih _ (by have := (foldCarryAux_step fuel s (by omega)).1; omega)

theorem foldCarryAux_mod (fuel : Nat) :
    ∀ s, s ≤ fuel → foldCarryAux fuel s % 65535 = s % 65535 := by
  induction fuel with
  | zero => intro s h; interval_cases s; simp [foldCarryAux]
  | succ fuel ih =>
    intro s h
    rw [foldCarryAux]
    split
    · rfl
    · rw [ih _ (by have := (foldCarryAux_step fuel s (by omega)).1; omega)]; omega

theorem foldCarryAux_eq_zero (fuel : Nat) :
    ∀ s, s ≤ fuel → (foldCarryAux fuel s = 0 ↔ s = 0) := by
  induction fuel with
  | zero => intro s h; interval_cases s; simp [foldCarryAux]
  | succ fuel ih =>
    intro s h
    rw [foldCarryAux]
    split
    · rfl
    · rw [ih _ (by have := (foldCarryAux_step fuel s (by omega)).1; omega)]
      have h1 : 1 ≤ s / 65536 := Nat.one_le_div_iff (by norm_num) |>.mpr (by omega)
      omega

theorem foldCarry_lt (s : Nat) : foldCarry s < 65536 :=
  foldCarryAux_lt s s le_rfl

theorem foldCarry_mod (s : Nat) : foldCarry s % 65535 = s % 65535 :=
  foldCarryAux_mod s s le_rfl

theorem foldCarry_eq_zero (s : Nat) : foldCarry s = 0 ↔ s = 0 :=
  foldCarryAux_eq_zero s s le_rfl

/-- Adding the ones-complement checksum of a sum back onto the sum always
folds to `0xFFFF`. -/
theorem foldCarry_complement (s : Nat) :
    foldCarry (s + (65535 - foldCarry s)) = 65535 := by
  have hf : foldCarry s < 65536 := foldCarry_lt s
  have hm : foldCarry s % 65535 = s % 65535 := foldCarry_mod s
  have hx : (s + (65535 - foldCarry s)) % 65535 = 0 := by omega
  have h0 : foldCarry 0 = 0 := rfl
  have hx0 : s + (65535 - foldCarry s) ≠ 0 := by
    rcases Nat.eq_zero_or_pos s with hs | hs
    · subst hs; rw [h0]; omega
    · omega
  have h1 : foldCarry (s + (65535 - foldCarry s)) < 65536 := foldCarry_lt _
  have h2 : foldCarry (s + (65535 - foldCarry s)) % 65535
      = (s + (65535 - foldCarry s)) % 65535 := foldCarry_mod _
  have h3 : foldCarry (s + (65535 - foldCarry s)) ≠ 0 :=
    fun h => hx0 ((foldCarry_eq_zero _).mp h)
  omega

/-! ## `network/mod.rs`: addresses -/

/-- `IpAddress { octets: [u8; 4] }`; the four array slots are separate
fields so that lengths are fixed by the type. -/
structure IpAddress where
  o0 : Nat
  o1 : Nat
  o2 : Nat
  o3 : Nat
deriving DecidableEq, Repr

/-- `IpAddress::as_bytes` / `.octets`. -/
def IpAddress.octets (a : IpAddress) : List Nat := [a.o0, a.o1, a.o2, a.o3]

/-- All four octets fit in a byte. -/
def IpAddress.wf (a : IpAddress) : Prop :=
  a.o0 < 256 ∧ a.o1 < 256 ∧ a.o2 < 256 ∧ a.o3 < 256

instance (a : IpAddress) : Decidable a.wf := by
  unfold IpAddress.wf
  infer_instance

/-- `MacAddress([u8; 6])`. -/
structure MacAddress where
  m0 : Nat
  m1 : Nat
  m2 : Nat
  m3 : Nat
  m4 : Nat
  m5 : Nat
deriving DecidableEq, Repr

/-- `MacAddress::as_bytes`. -/
def MacAddress.octets (m : MacAddress) : List Nat :=
  [m.m0, m.m1, m.m2, m.m3, m.m4, m.m5]

/-- `MacAddress::new([0xFF; 6])`, the broadcast address. -/
def MacAddress.broadcast : MacAddress := ⟨0xFF, 0xFF, 0xFF, 0xFF, 0xFF, 0xFF⟩

/-! ## `network/ip.rs` -/

/-- `enum IpProtocol`. -/
inductive IpProtocol
  | icmp
  | tcp
  | udp
  | unknown
deriving DecidableEq, Repr

/-- The discriminant values (`Icmp = 1, Tcp = 6, Udp = 17, Unknown = 255`),
i.e. `self.protocol as u8`. -/
def IpProtocol.toNat : IpProtocol → Nat
  | .icmp => 1
  | .tcp => 6
  | .udp => 17
  | .unknown => 255

/-- `impl From<u8> for IpProtocol`. -/
def IpProtocol.fromByte (v : Nat) : IpProtocol :=
  if v = 1 then .icmp
  else if v = 6 then .tcp
  else if v = 17 then .udp
  else .unknown

theorem IpProtocol.fromByte_toNat (p : IpProtocol) : IpProtocol.fromByte p.toNat = p := by
  cases p <;> rfl

/-- `struct IpPacket` (fields in source order). -/
structure IpPacket where
  version : Nat
  header_length : Nat
  dscp : Nat
  ecn : Nat
  total_length : Nat
  identification : Nat
  flags : Nat
  fragment_offset : Nat
  ttl : Nat
  protocol : IpProtocol
  checksum : Nat
  source : IpAddress
  destination : IpAddress
  payload : List Nat
deriving DecidableEq, Repr

/-- `IpPacket::new` (version 4, header length 5, TTL 64, checksum 0;
`(IP_HEADER_LEN + payload.len()) as u16` truncates). -/
def IpPacket.new (source destination : IpAddress) (protocol : IpProtocol)
    (payload : List Nat) : IpPacket where
  version := 4
  header_length := 20 / 4
  dscp := 0
  ecn := 0
  total_length := (20 + payload.length) % 65536
  identification := 0
  flags := 0
  fragment_offset := 0
  ttl := 64
  protocol := protocol
  checksum := 0
  source := source
  destination := destination
  payload := payload

/-- The 20 header bytes pushed by `IpPacket::to_bytes` with a given value
in the checksum slot (bytes 10 and 11).  `to_bytes` first pushes them with
checksum 0, then overwrites bytes 10..12 with the computed checksum; both
snapshots are instances of this function. -/
def IpPacket.headerBytes (p : IpPacket) (ck : Nat) : List Nat :=
  [(p.version <<< 4) % 256 ||| p.header_length,
   (p.dscp <<< 2) % 256 ||| p.ecn] ++
  be16 p.total_length ++
  be16 p.identification ++
  be16 ((p.flags <<< 13) % 65536 ||| p.fragment_offset &&& 0x1FFF) ++
  [p.ttl, p.protocol.toNat] ++
  be16 ck ++
  p.source.octets ++
  p.destination.octets

/-- `IpPacket::calculate_checksum`: sum the ten big-endian 16-bit words of
the first 20 bytes, fold the carries, and take `!sum as u16`. -/
def IpPacket.calculate_checksum (header : List Nat) : Nat :=
  onesComplement16 (foldCarry (sum16 (header.take 20)))

/-- `IpPacket::to_bytes` (takes `&mut self`: it stores the computed
checksum in the packet).  Returns the emitted bytes and the updated
packet. -/
def IpPacket.to_bytes (p : IpPacket) : List Nat × IpPacket :=
  let ck := IpPacket.calculate_checksum (p.headerBytes 0)
  (p.headerBytes ck ++ p.payload, { p with checksum := ck })

/-- `IpPacket::parse`. -/
def IpPacket.parse (data : List Nat) : Option IpPacket :=
  if data.length < 20 then none
  else
    let version := (data.getD 0 0 >>> 4) &&& 0xF
    if version ≠ 4 then none
    else
      some
        { version := version
          header_length := data.getD 0 0 &&& 0xF
          dscp := (data.getD 1 0 >>> 2) &&& 0x3F
          ecn := data.getD 1 0 &&& 0x3
          total_length := data.getD 2 0 * 256 + data.getD 3 0
          identification := data.getD 4 0 * 256 + data.getD 5 0
          flags := (data.getD 6 0 >>> 5) &&& 0x7
          fragment_offset := (data.getD 6 0 &&& 0x1F) * 256 + data.getD 7 0
          ttl := data.getD 8 0
          protocol := IpProtocol.fromByte (data.getD 9 0)
          checksum := data.getD 10 0 * 256 + data.getD 11 0
          source := ⟨data.getD 12 0, data.getD 13 0, data.getD 14 0, data.getD 15 0⟩
          destination := ⟨data.getD 16 0, data.getD 17 0, data.getD 18 0, data.getD 19 0⟩
          payload := data.drop 20 }

theorem onesComplement16_lt (s : Nat) : onesComplement16 s < 65536 :=
  Nat.mod_lt _ (by norm_num)

theorem onesComplement16_of_lt (f : Nat) (h : f < 65536) :
    onesComplement16 f = 65535 - f := by
  unfold onesComplement16
  omega

theorem IpPacket.headerBytes_length (p : IpPacket) (ck : Nat) :
    (p.headerBytes ck).length = 20 := by
  simp [IpPacket.headerBytes, be16, IpAddress.octets]

theorem IpPacket.headerBytes_sum (p : IpPacket) (ck : Nat) (h : ck < 65536) :
    sum16 (p.headerBytes ck) = sum16 (p.headerBytes 0) + ck := by
  simp only [IpPacket.headerBytes, be16, IpAddress.octets, List.cons_append,
    List.nil_append, sum16]
  omega

/-- The checksum written by `IpPacket::to_bytes` makes the emitted header
verify: recomputing `calculate_checksum` over the emitted bytes gives 0. -/
theorem IpPacket.calculate_checksum_to_bytes (p : IpPacket) :
    IpPacket.calculate_checksum p.to_bytes.1 = 0 := by
  unfold IpPacket.to_bytes
  simp only
  rw [IpPacket.calculate_checksum, List.take_left' (p.headerBytes_length _)]
  rw [IpPacket.calculate_checksum,
    List.take_of_length_le (le_of_eq (p.headerBytes_length 0))]
  rw [IpPacket.headerBytes_sum p _ (onesComplement16_lt _),
    onesComplement16_of_lt (foldCarry (sum16 (p.headerBytes 0))) (foldCarry_lt _),
    foldCarry_complement]
  rfl

/-- Evaluation of `IpPacket::parse` on a buffer of at least 20 bytes whose
version nibble is 4. -/
theorem IpPacket.parse_cons
    (b0 b1 b2 b3 b4 b5 b6 b7 b8 b9 b10 b11 b12 b13 b14 b15 b16 b17 b18 b19 : Nat)
    (rest : List Nat) (hv : (b0 >>> 4) &&& 15 = 4) :
    IpPacket.parse (b0 :: b1 :: b2 :: b3 :: b4 :: b5 :: b6 :: b7 :: b8 :: b9 :: b10 ::
        b11 :: b12 :: b13 :: b14 :: b15 :: b16 :: b17 :: b18 :: b19 :: rest) =
      some
        { version := 4
          header_length := b0 &&& 0xF
          dscp := (b1 >>> 2) &&& 0x3F
          ecn := b1 &&& 0x3
          total_length := b2 * 256 + b3
          identification := b4 * 256 + b5
          flags := (b6 >>> 5) &&& 0x7
          fragment_offset := (b6 &&& 0x1F) * 256 + b7
          ttl := b8
          protocol := IpProtocol.fromByte b9
          checksum := b10 * 256 + b11
          source := ⟨b12, b13, b14, b15⟩
          destination := ⟨b16, b17, b18, b19⟩
          payload := rest } := by
  simp [IpPacket.parse, List.getD, hv]

/-- Claim C1: building a fresh IPv4 packet from any source, destination,
protocol and payload (and any TTL byte in the header), encoding it with
`to_bytes` and parsing the result yields a packet with the same source,
destination, protocol, TTL and payload, and recomputing the checksum
routine over the encoded header (stored checksum in place) gives zero,
i.e. the stored checksum verifies. -/
theorem ip_encode_parse_roundtrip (src dst : IpAddress) (proto : IpProtocol)
    (ttl : Nat) (payload : List Nat) (_hsrc : src.wf) (_hdst : dst.wf)
    (_httl : ttl < 256) :
    ∃ q : IpPacket,
      IpPacket.parse ({ IpPacket.new src dst proto payload with
          ttl := ttl }.to_bytes).1 = some q
      ∧ q.source = src ∧ q.destination = dst ∧ q.protocol = proto ∧ q.ttl = ttl
      ∧ q.payload = payload
      ∧ IpPacket.calculate_checksum ({ IpPacket.new src dst proto payload with
          ttl := ttl }.to_bytes).1 = 0 := by
  apply Exists.intro
  constructor
  · simp only [IpPacket.to_bytes, IpPacket.headerBytes, IpPacket.new, be16,
      IpAddress.octets, List.append_assoc, List.cons_append, List.nil_append]
    rw [IpPacket.parse_cons]
    rfl
  · exact ⟨rfl, rfl, IpProtocol.fromByte_toNat proto, rfl, rfl,
      IpPacket.calculate_checksum_to_bytes _⟩

/-- Witness for C1, at the spec's scenario S1 values (src 10.0.0.1,
dst 10.0.0.2, protocol UDP, TTL 64, payload DE AD BE EF). -/
theorem ip_encode_parse_roundtrip_witness :
    (IpAddress.wf ⟨10, 0, 0, 1⟩ ∧ IpAddress.wf ⟨10, 0, 0, 2⟩ ∧ 64 < 256) ∧
    ∃ q : IpPacket,
      IpPacket.parse ({ IpPacket.new ⟨10, 0, 0, 1⟩ ⟨10, 0, 0, 2⟩ IpProtocol.udp
          [0xDE, 0xAD, 0xBE, 0xEF] with ttl := 64 }.to_bytes).1 = some q
      ∧ q.source = ⟨10, 0, 0, 1⟩ ∧ q.destination = ⟨10, 0, 0, 2⟩
      ∧ q.protocol = IpProtocol.udp ∧ q.ttl = 64
      ∧ q.payload = [0xDE, 0xAD, 0xBE, 0xEF]
      ∧ IpPacket.calculate_checksum ({ IpPacket.new ⟨10, 0, 0, 1⟩ ⟨10, 0, 0, 2⟩
          IpProtocol.udp [0xDE, 0xAD, 0xBE, 0xEF] with ttl := 64 }.to_bytes).1 = 0 :=
  ⟨⟨by decide, by decide, by decide⟩,
    ip_encode_parse_roundtrip ⟨10, 0, 0, 1⟩ ⟨10, 0, 0, 2⟩ IpProtocol.udp 64
      [0xDE, 0xAD, 0xBE, 0xEF] (by decide) (by decide) (by decide)⟩

/-! ## `network/udp.rs` -/

/-- `struct UdpPacket`. -/
structure UdpPacket where
  source_port : Nat
  destination_port : Nat
  length : Nat
  checksum : Nat
  payload : List Nat
deriving DecidableEq, Repr

/-- `UdpPacket::new` (`(UDP_HEADER_LEN + payload.len()) as u16` truncates). -/
def UdpPacket.new (source_port destination_port : Nat) (payload : List Nat) :
    UdpPacket where
  source_port := source_port
  destination_port := destination_port
  length := (8 + payload.length) % 65536
  checksum := 0
  payload := payload

/-- `UdpPacket::to_bytes`: 8 header bytes (including the stored checksum)
followed by the payload. -/
def UdpPacket.to_bytes (p : UdpPacket) : List Nat :=
  be16 p.source_port ++ be16 p.destination_port ++ be16 p.length ++
    be16 p.checksum ++ p.payload

/-- The value `UdpPacket::calculate_checksum` computes: it first zeroes
`self.checksum`, sums the pseudo-header (source IP, destination IP,
protocol 17, UDP length field) plus the serialized header and payload,
folds the carries and complements. -/
def UdpPacket.computedChecksum (p : UdpPacket) (source_ip dest_ip : IpAddress) :
    Nat :=
  onesComplement16 (foldCarry
    (sum16 source_ip.octets + sum16 dest_ip.octets + (17 + p.length) +
      sum16 ({ p with checksum := 0 } : UdpPacket).to_bytes))

/-- `UdpPacket::calculate_checksum` (takes `&mut self` and stores the
computed value). -/
def UdpPacket.calculate_checksum (p : UdpPacket) (source_ip dest_ip : IpAddress) :
    UdpPacket :=
  { p with checksum := p.computedChecksum source_ip dest_ip }

/-- `UdpPacket::verify_checksum`: clone, recompute, compare with the stored
checksum. -/
def UdpPacket.verify_checksum (p : UdpPacket) (source_ip dest_ip : IpAddress) :
    Bool :=
  p.checksum == (p.calculate_checksum source_ip dest_ip).checksum

/-- Counterexample to claim C7: the UDP packet built by `new(0, 0, [])`
has checksum field zero, yet `verify_checksum` fails on it (the code has
no zero-checksum special case: it compares 0 with the full recomputation,
here 0xFFDE). -/
theorem udp_zero_checksum_is_checked :
    (UdpPacket.new 0 0 []).checksum = 0 ∧
    UdpPacket.verify_checksum (UdpPacket.new 0 0 []) ⟨0, 0, 0, 0⟩ ⟨0, 0, 0, 0⟩
      = false ∧
    (UdpPacket.new 0 0 []).computedChecksum ⟨0, 0, 0, 0⟩ ⟨0, 0, 0, 0⟩ = 0xFFDE := by
  decide

/-- Claim C7 as amended: receive-side verification does not special-case a
zero checksum — a packet whose checksum field is zero verifies exactly
when the full pseudo-header recomputation is itself zero — while on send
`calculate_checksum` stores the full computed pseudo-header checksum,
`to_bytes` emits it in bytes 6 and 7, and a packet that went through
`calculate_checksum` always verifies. -/
theorem udp_checksum_spec (p : UdpPacket) (source_ip dest_ip : IpAddress) :
    UdpPacket.verify_checksum (p.calculate_checksum source_ip dest_ip)
      source_ip dest_ip = true
    ∧ (p.calculate_checksum source_ip dest_ip).to_bytes.getD 6 0
        = p.computedChecksum source_ip dest_ip / 256 % 256
    ∧ (p.calculate_checksum source_ip dest_ip).to_bytes.getD 7 0
        = p.computedChecksum source_ip dest_ip % 256
    ∧ (p.checksum = 0 →
        (p.verify_checksum source_ip dest_ip = true ↔
          p.computedChecksum source_ip dest_ip = 0)) := by
  refine ⟨?_, ?_, ?_, ?_⟩
  · exact beq_self_eq_true _
  · rfl
  · rfl
  · intro h
    have hv : p.verify_checksum source_ip dest_ip
        = (p.checksum == p.computedChecksum source_ip dest_ip) := rfl
    rw [hv, h, beq_iff_eq]
    exact eq_comm

/-- Witness for the amended C7 at concrete inputs. -/
theorem udp_checksum_spec_witness :
    UdpPacket.verify_checksum
      ((UdpPacket.new 7 9 [1, 2, 3]).calculate_checksum ⟨10, 0, 0, 1⟩ ⟨10, 0, 0, 2⟩)
      ⟨10, 0, 0, 1⟩ ⟨10, 0, 0, 2⟩ = true
    ∧ (UdpPacket.new 7 9 [1, 2, 3]).checksum = 0
    ∧ (UdpPacket.verify_checksum (UdpPacket.new 7 9 [1, 2, 3])
          ⟨10, 0, 0, 1⟩ ⟨10, 0, 0, 2⟩ = true ↔
        (UdpPacket.new 7 9 [1, 2, 3]).computedChecksum
          ⟨10, 0, 0, 1⟩ ⟨10, 0, 0, 2⟩ = 0) :=
  ⟨(udp_checksum_spec (UdpPacket.new 7 9 [1, 2, 3]) ⟨10, 0, 0, 1⟩ ⟨10, 0, 0, 2⟩).1,
    by decide,
    (udp_checksum_spec (UdpPacket.new 7 9 [1, 2, 3]) ⟨10, 0, 0, 1⟩
      ⟨10, 0, 0, 2⟩).2.2.2 (by decide)⟩

/-! ## `network/tcp.rs` -/

/-- `enum TcpState`. -/
inductive TcpState
  | closed
  | listen
  | synSent
  | synReceived
  | established
  | finWait1
  | finWait2
  | closeWait
  | closing
  | lastAck
  | timeWait
deriving DecidableEq, Repr

/-- `struct TcpFlags`. -/
structure TcpFlags where
  fin : Bool
  syn : Bool
  rst : Bool
  psh : Bool
  ack : Bool
  urg : Bool
deriving DecidableEq, Repr

/-- `TcpFlags::new` (all false). -/
def TcpFlags.new : TcpFlags := ⟨false, false, false, false, false, false⟩

/-- `TcpFlags::from_byte`. -/
def TcpFlags.from_byte (b : Nat) : TcpFlags where
  fin := b &&& 0x01 ≠ 0
  syn := b &&& 0x02 ≠ 0
  rst := b &&& 0x04 ≠ 0
  psh := b &&& 0x08 ≠ 0
  ack := b &&& 0x10 ≠ 0
  urg := b &&& 0x20 ≠ 0

/-- `TcpFlags::to_byte` (successive `|=`s on a zero byte). -/
def TcpFlags.to_byte (f : TcpFlags) : Nat :=
  let b := 0
  let b := if f.fin then b ||| 0x01 else b
  let b := if f.syn then b ||| 0x02 else b
  let b := if f.rst then b ||| 0x04 else b
  let b := if f.psh then b ||| 0x08 else b
  let b := if f.ack then b ||| 0x10 else b
  let b := if f.urg then b ||| 0x20 else b
  b

/-- `struct TcpSegment`. -/
structure TcpSegment where
  source_port : Nat
  destination_port : Nat
  sequence_number : Nat
  acknowledgment_number : Nat
  data_offset : Nat
  flags : TcpFlags
  window_size : Nat
  checksum : Nat
  urgent_pointer : Nat
  payload : List Nat
deriving DecidableEq, Repr

/-- `TcpSegment::new` (data offset 5, checksum 0, urgent pointer 0). -/
def TcpSegment.new (source_port destination_port sequence_number
    acknowledgment_number : Nat) (flags : TcpFlags) (window_size : Nat)
    (payload : List Nat) : TcpSegment where
  source_port := source_port
  destination_port := destination_port
  sequence_number := sequence_number
  acknowledgment_number := acknowledgment_number
  data_offset := 20 / 4
  flags := flags
  window_size := window_size
  checksum := 0
  urgent_pointer := 0
  payload := payload

/-- `TcpSegment::to_bytes`.  Unlike the IP and UDP encoders, the checksum
slot (bytes 16 and 17) is pushed as `[0, 0]` and never overwritten: the
stored `checksum` field does not appear in the output. -/
def TcpSegment.to_bytes (s : TcpSegment) : List Nat :=
  be16 s.source_port ++ be16 s.destination_port ++
    be32 s.sequence_number ++ be32 s.acknowledgment_number ++
    [(s.data_offset <<< 4) % 256 &&& 0xF0] ++ [s.flags.to_byte] ++
    be16 s.window_size ++ [0, 0] ++ be16 s.urgent_pointer ++ s.payload

/-- The value computed by `TcpSegment::calculate_checksum`: pseudo-header
(source IP, destination IP, protocol 6, TCP length) plus the serialized
segment, folded and complemented. -/
def TcpSegment.computedChecksum (s : TcpSegment) (source_ip dest_ip : IpAddress) :
    Nat :=
  onesComplement16 (foldCarry
    (sum16 source_ip.octets + sum16 dest_ip.octets + 6 +
      (20 + s.payload.length) + sum16 s.to_bytes))

/-- `TcpSegment::calculate_checksum` (takes `&mut self` and stores the
computed value in the `checksum` field). -/
def TcpSegment.calculate_checksum (s : TcpSegment) (source_ip dest_ip : IpAddress) :
    TcpSegment :=
  { s with checksum := s.computedChecksum source_ip dest_ip }

/-- Claim C9: for every TCP segment, `to_bytes` emits zero in the checksum
field (bytes 16 and 17), both before and after `calculate_checksum` has
stored a computed checksum in the segment — so every segment handed to the
driver carries a zero checksum on the wire. -/
theorem tcp_to_bytes_zero_checksum (s : TcpSegment) (source_ip dest_ip : IpAddress) :
    s.to_bytes.getD 16 0 = 0 ∧ s.to_bytes.getD 17 0 = 0
    ∧ (s.calculate_checksum source_ip dest_ip).to_bytes.getD 16 0 = 0
    ∧ (s.calculate_checksum source_ip dest_ip).to_bytes.getD 17 0 = 0 :=
  ⟨rfl, rfl, rfl, rfl⟩

/-- `struct TcpConnection`. -/
structure TcpConnection where
  state : TcpState
  local_addr : IpAddress
  remote_addr : IpAddress
  local_port : Nat
  remote_port : Nat
  sequence_number : Nat
  acknowledgment_number : Nat
  window_size : Nat
  receive_buffer : List Nat
deriving DecidableEq, Repr

/-- `TcpConnection::new`. -/
def TcpConnection.new (local_addr : IpAddress) (local_port : Nat) :
    TcpConnection where
  state := .closed
  local_addr := local_addr
  remote_addr := ⟨0, 0, 0, 0⟩
  local_port := local_port
  remote_port := 0
  sequence_number := 0
  acknowledgment_number := 0
  window_size := 8192
  receive_buffer := []

/-- `TcpConnection::connect`.  Emitted segments are collected in the third
component: the code serializes each one with `to_bytes` and hands it to
`NETWORK_DRIVER`; we keep the segment value at that point.  `+= 1` on the
`u32` sequence number wraps. -/
def TcpConnection.connect (c : TcpConnection) (remote_addr : IpAddress)
    (remote_port : Nat) : Except String Unit × TcpConnection × List TcpSegment :=
  if c.state ≠ TcpState.closed then (.error "Connection already exists", c, [])
  else
    let c := { c with remote_addr := remote_addr, remote_port := remote_port,
                      sequence_number := 0 }
    let flags := { TcpFlags.new with syn := true }
    let segment := TcpSegment.new c.local_port c.remote_port c.sequence_number 0
      flags c.window_size []
    let segment := segment.calculate_checksum c.local_addr c.remote_addr
    (.ok (), { c with state := .synSent,
                      sequence_number := (c.sequence_number + 1) % 2 ^ 32 },
      [segment])

/-- `TcpConnection::handle_syn_received` (Listen state). -/
def TcpConnection.handle_syn_received (c : TcpConnection) (segment : TcpSegment) :
    TcpConnection × List TcpSegment :=
  let c := { c with remote_addr := (⟨0, 0, 0, 0⟩ : IpAddress),
                    remote_port := segment.source_port,
                    acknowledgment_number := (segment.sequence_number + 1) % 2 ^ 32 }
  let flags := { TcpFlags.new with syn := true, ack := true }
  let response := (TcpSegment.new c.local_port c.remote_port c.sequence_number
    c.acknowledgment_number flags c.window_size []).calculate_checksum
    c.local_addr c.remote_addr
  ({ c with state := .synReceived,
            sequence_number := (c.sequence_number + 1) % 2 ^ 32 }, [response])

/-- `TcpConnection::handle_syn_ack_received` (SynSent state). -/
def TcpConnection.handle_syn_ack_received (c : TcpConnection)
    (segment : TcpSegment) : TcpConnection × List TcpSegment :=
  if segment.acknowledgment_number = c.sequence_number then
    let c := { c with
      acknowledgment_number := (segment.sequence_number + 1) % 2 ^ 32 }
    let flags := { TcpFlags.new with ack := true }
    let response := (TcpSegment.new c.local_port c.remote_port c.sequence_number
      c.acknowledgment_number flags c.window_size []).calculate_checksum
      c.local_addr c.remote_addr
    ({ c with state := .established }, [response])
  else (c, [])

/-- `TcpConnection::handle_established`. -/
def TcpConnection.handle_established (c : TcpConnection) (segment : TcpSegment) :
    TcpConnection × List TcpSegment :=
  if segment.payload ≠ [] then
    let c := { c with
      receive_buffer := c.receive_buffer ++ segment.payload,
      acknowledgment_number :=
        (c.acknowledgment_number + segment.payload.length) % 2 ^ 32 }
    let flags := { TcpFlags.new with ack := true }
    let response := (TcpSegment.new c.local_port c.remote_port c.sequence_number
      c.acknowledgment_number flags c.window_size []).calculate_checksum
      c.local_addr c.remote_addr
    (c, [response])
  else (c, [])

/-- `TcpConnection::handle_segment`. -/
def TcpConnection.handle_segment (c : TcpConnection) (segment : TcpSegment) :
    TcpConnection × List TcpSegment :=
  match c.state with
  | .listen =>
    if segment.flags.syn then c.handle_syn_received segment else (c, [])
  | .synSent =>
    if segment.flags.syn && segment.flags.ack then
      c.handle_syn_ack_received segment
    else (c, [])
  | .established => c.handle_established segment
  | _ => (c, [])

/-- Claim C3: from a fresh Closed connection, `connect` emits a SYN segment
with sequence number equal to the initial sequence number S0 = 0 (the code
sets the ISN to 0, with a TODO to randomize) and acknowledgment 0, bumps
the local sequence number to S0 + 1 = 1 and enters SynSent; then any
segment with SYN and ACK set whose acknowledgment number is S0 + 1 makes
the connection emit an ACK segment with sequence S0 + 1 and acknowledgment
`received sequence + 1` (u32 wrap) and enter Established. -/
theorem tcp_handshake_initiator (local_addr remote_addr : IpAddress)
    (local_port remote_port : Nat) (s : TcpSegment)
    (hsyn : s.flags.syn = true) (hack : s.flags.ack = true)
    (hackno : s.acknowledgment_number = 1) :
    ∃ (c1 c2 : TcpConnection) (synSeg ackSeg : TcpSegment),
      (TcpConnection.new local_addr local_port).connect remote_addr remote_port
        = (.ok (), c1, [synSeg])
      ∧ synSeg.flags.syn = true ∧ synSeg.flags.ack = false
      ∧ synSeg.sequence_number = 0 ∧ synSeg.acknowledgment_number = 0
      ∧ c1.state = TcpState.synSent ∧ c1.sequence_number = 1
      ∧ c1.handle_segment s = (c2, [ackSeg])
      ∧ ackSeg.flags.ack = true ∧ ackSeg.flags.syn = false
      ∧ ackSeg.sequence_number = 1
      ∧ ackSeg.acknowledgment_number = (s.sequence_number + 1) % 2 ^ 32
      ∧ c2.state = TcpState.established := by
  have hconn : (TcpConnection.new local_addr local_port).connect remote_addr
      remote_port
      = (.ok (), { TcpConnection.new local_addr local_port with
            remote_addr := remote_addr, remote_port := remote_port,
            state := TcpState.synSent, sequence_number := 1 },
          [(TcpSegment.new local_port remote_port 0 0
              { TcpFlags.new with syn := true } 8192 []).calculate_checksum
              local_addr remote_addr]) := rfl
  have hhandle : TcpConnection.handle_segment
      { TcpConnection.new local_addr local_port with
        remote_addr := remote_addr, remote_port := remote_port,
        state := TcpState.synSent, sequence_number := 1 } s
      = ({ TcpConnection.new local_addr local_port with
            remote_addr := remote_addr, remote_port := remote_port,
            state := TcpState.established, sequence_number := 1,
            acknowledgment_number := (s.sequence_number + 1) % 2 ^ 32 },
          [(TcpSegment.new local_port remote_port 1
              ((s.sequence_number + 1) % 2 ^ 32)
              { TcpFlags.new with ack := true } 8192 []).calculate_checksum
              local_addr remote_addr]) := by
    simp only [TcpConnection.handle_segment, TcpConnection.handle_syn_ack_received,
      hsyn, hack, hackno]
    rfl
  exact ⟨_, _, _, _, hconn, rfl, rfl, rfl, rfl, rfl, rfl, hhandle, rfl, rfl, rfl,
    rfl, rfl⟩

/-- Witness for C3 with remote 10.0.0.2:80 and a SYN+ACK carrying sequence
number 5000 and acknowledgment 1. -/
theorem tcp_handshake_initiator_witness :
    ((TcpSegment.new 80 12345 5000 1 { TcpFlags.new with syn := true, ack := true }
        8192 []).flags.syn = true) ∧
    ∃ (c1 c2 : TcpConnection) (synSeg ackSeg : TcpSegment),
      (TcpConnection.new ⟨10, 0, 0, 1⟩ 12345).connect ⟨10, 0, 0, 2⟩ 80
        = (.ok (), c1, [synSeg])
      ∧ synSeg.flags.syn = true ∧ synSeg.flags.ack = false
      ∧ synSeg.sequence_number = 0 ∧ synSeg.acknowledgment_number = 0
      ∧ c1.state = TcpState.synSent ∧ c1.sequence_number = 1
      ∧ c1.handle_segment (TcpSegment.new 80 12345 5000 1
          { TcpFlags.new with syn := true, ack := true } 8192 []) = (c2, [ackSeg])
      ∧ ackSeg.flags.ack = true ∧ ackSeg.flags.syn = false
      ∧ ackSeg.sequence_number = 1
      ∧ ackSeg.acknowledgment_number
          = ((TcpSegment.new 80 12345 5000 1
              { TcpFlags.new with syn := true, ack := true } 8192 []).sequence_number
              + 1) % 2 ^ 32
      ∧ c2.state = TcpState.established :=
  ⟨rfl,
    tcp_handshake_initiator ⟨10, 0, 0, 1⟩ ⟨10, 0, 0, 2⟩ 12345 80
      (TcpSegment.new 80 12345 5000 1 { TcpFlags.new with syn := true, ack := true }
        8192 []) rfl rfl rfl⟩

/-! ## `network/icmp.rs` -/

/-- `enum IcmpType`. -/
inductive IcmpType
  | echoReply
  | destinationUnreachable
  | echoRequest
  | timeExceeded
deriving DecidableEq, Repr

/-- `enum IcmpCode`. -/
inductive IcmpCode
  | networkUnreachable
  | hostUnreachable
  | protocolUnreachable
  | portUnreachable
  | fragmentationNeeded
  | sourceRouteFailed
  | ttlExceeded
  | fragmentReassemblyTimeExceeded
  | echoCode
deriving DecidableEq, Repr

/-- `struct IcmpPacket`. -/
structure IcmpPacket where
  icmp_type : IcmpType
  code : IcmpCode
  checksum : Nat
  rest_of_header : Nat
  payload : List Nat
deriving DecidableEq, Repr

/-- Rust range slicing `data[..n]`: defined only when `n <= data.len()`,
and the out-of-range case panics at run time (modelled as `none`). -/
def sliceTo (data : List Nat) (n : Nat) : Option (List Nat) :=
  if n ≤ data.length then some (data.take n) else none

/-- `IcmpPacket::new_destination_unreachable`: type 3, given code,
checksum 0, rest-of-header 0, payload `original_packet[..64]`.  The
unconditional 64-byte slice panics (`none`) whenever the original packet
is shorter than 64 bytes. -/
def IcmpPacket.new_destination_unreachable (code : IcmpCode)
    (original_packet : List Nat) : Option IcmpPacket :=
  (sliceTo original_packet 64).map fun sliced =>
    { icmp_type := .destinationUnreachable
      code := code
      checksum := 0
      rest_of_header := 0
      payload := sliced }

/-- Claim C10: `new_destination_unreachable` takes exactly the first 64
bytes of the original packet as payload and is total only under the
precondition `original_packet.len() >= 64`; any shorter input makes the
slice `original_packet[..64]` panic. -/
theorem icmp_destination_unreachable_slice (code : IcmpCode)
    (original_packet : List Nat) :
    (64 ≤ original_packet.length →
      IcmpPacket.new_destination_unreachable code original_packet
        = some { icmp_type := .destinationUnreachable, code := code,
                 checksum := 0, rest_of_header := 0,
                 payload := original_packet.take 64 })
    ∧ (original_packet.length < 64 →
      IcmpPacket.new_destination_unreachable code original_packet = none) := by
  constructor
  · intro h
    simp [IcmpPacket.new_destination_unreachable, sliceTo, h]
  · intro h
    simp [IcmpPacket.new_destination_unreachable, sliceTo, Nat.not_le.mpr h]

/-- Witness for C10: a 64-byte original packet succeeds with its first 64
bytes as payload; a 3-byte one panics. -/
theorem icmp_destination_unreachable_slice_witness :
    (IcmpPacket.new_destination_unreachable IcmpCode.portUnreachable
        (List.replicate 64 7)
      = some { icmp_type := .destinationUnreachable,
               code := IcmpCode.portUnreachable, checksum := 0,
               rest_of_header := 0,
               payload := (List.replicate 64 7).take 64 })
    ∧ IcmpPacket.new_destination_unreachable IcmpCode.portUnreachable [1, 2, 3]
        = none :=
  ⟨(icmp_destination_unreachable_slice IcmpCode.portUnreachable
      (List.replicate 64 7)).1 (by decide),
   (icmp_destination_unreachable_slice IcmpCode.portUnreachable [1, 2, 3]).2
      (by decide)⟩

/-! ## `network/ethernet.rs` and `network/arp.rs` -/

/-- `enum EtherType`. -/
inductive EtherType
  | ipv4
  | arp
  | unknown
deriving DecidableEq, Repr

/-- `struct EthernetFrame` (constructed by `EthernetFrame::new`). -/
structure EthernetFrame where
  destination : MacAddress
  source : MacAddress
  ethertype : EtherType
  payload : List Nat
deriving DecidableEq, Repr

/-- `EthernetFrame::new`. -/
def EthernetFrame.new (destination source : MacAddress) (ethertype : EtherType)
    (payload : List Nat) : EthernetFrame :=
  ⟨destination, source, ethertype, payload⟩

/-- `enum ArpOperation`. -/
inductive ArpOperation
  | request
  | reply
deriving DecidableEq, Repr

/-- `ArpOperation as u16` (`Request = 1, Reply = 2`). -/
def ArpOperation.toNat : ArpOperation → Nat
  | .request => 1
  | .reply => 2

/-- `struct ArpPacket`. -/
structure ArpPacket where
  hardware_type : Nat
  protocol_type : Nat
  hardware_size : Nat
  protocol_size : Nat
  operation : ArpOperation
  sender_mac : MacAddress
  sender_ip : IpAddress
  target_mac : MacAddress
  target_ip : IpAddress
deriving DecidableEq, Repr

/-- `ArpPacket::new_request` (Ethernet/IPv4 constants, target MAC zero). -/
def ArpPacket.new_request (sender_mac : MacAddress) (sender_ip target_ip : IpAddress) :
    ArpPacket where
  hardware_type := 1
  protocol_type := 0x0800
  hardware_size := 6
  protocol_size := 4
  operation := .request
  sender_mac := sender_mac
  sender_ip := sender_ip
  target_mac := ⟨0, 0, 0, 0, 0, 0⟩
  target_ip := target_ip

/-- `ArpPacket::to_bytes` (28 bytes). -/
def ArpPacket.to_bytes (p : ArpPacket) : List Nat :=
  be16 p.hardware_type ++ be16 p.protocol_type ++
    [p.hardware_size, p.protocol_size] ++ be16 p.operation.toNat ++
    p.sender_mac.octets ++ p.sender_ip.octets ++
    p.target_mac.octets ++ p.target_ip.octets

/-- `struct ArpCacheEntry`. -/
structure ArpCacheEntry where
  mac_address : MacAddress
  timestamp : Nat
deriving DecidableEq, Repr

/-- The part of `struct NetworkInterface` read by the ARP code. -/
structure NetworkInterface where
  mac_address : MacAddress
  ip_address : IpAddress
deriving DecidableEq, Repr

/-- `get_mac_address`, for a configured interface and an attached driver.
`now` is the value the `get_current_time()` call returns during this call
(the repository's placeholder returns 0; the spec directs implementers to
use seconds from a monotonic clock, which this parameter stands for).
Returns the resolved MAC, the cache after the call, and the Ethernet
frames handed to `driver.send`.  `now - entry.timestamp` is `u64`
subtraction, hence `wsub64`. -/
def getMacAddress (cache : List (IpAddress × ArpCacheEntry))
    (iface : NetworkInterface) (now : Nat) (ip : IpAddress) :
    Option MacAddress × List (IpAddress × ArpCacheEntry) × List EthernetFrame :=
  match cache.lookup ip with
  | some entry =>
    if wsub64 now entry.timestamp < 300 then (some entry.mac_address, cache, [])
    else
      let cache := cache.filter fun p => p.1 ≠ ip
      let request := ArpPacket.new_request iface.mac_address iface.ip_address ip
      let frame := EthernetFrame.new MacAddress.broadcast iface.mac_address
        EtherType.arp request.to_bytes
      (none, cache, [frame])
  | none =>
    let request := ArpPacket.new_request iface.mac_address iface.ip_address ip
    let frame := EthernetFrame.new MacAddress.broadcast iface.mac_address
      EtherType.arp request.to_bytes
    (none, cache, [frame])

theorem wsub64_elapsed (t0 t : Nat) (h : t0 + t < 2 ^ 64) :
    wsub64 (t0 + t) t0 = t := by
  unfold wsub64
  have h64 : (2 : Nat) ^ 64 = 18446744073709551616 := by norm_num
  rw [h64] at h ⊢
  omega

/-- Claim C6: a cache entry inserted at time `t0` and looked up `t` seconds
later is returned iff `t < 300`; at `t >= 300` the stale entry is dropped
and an ARP request is broadcast (destination MAC ff:ff:ff:ff:ff:ff, sender
the configured interface MAC and IP, target the queried IP) with no MAC
returned, and the same broadcast happens when the IP is absent from the
cache. -/
theorem arp_get_mac_address_spec (cache : List (IpAddress × ArpCacheEntry))
    (iface : NetworkInterface) (ip : IpAddress) (mac : MacAddress) (t0 t : Nat)
    (hlookup : cache.lookup ip = some ⟨mac, t0⟩) (hbound : t0 + t < 2 ^ 64) :
    ((getMacAddress cache iface (t0 + t) ip).1 = some mac ↔ t < 300)
    ∧ (300 ≤ t →
        getMacAddress cache iface (t0 + t) ip
          = (none, cache.filter fun p => p.1 ≠ ip,
             [EthernetFrame.new MacAddress.broadcast iface.mac_address
                EtherType.arp
                (ArpPacket.new_request iface.mac_address iface.ip_address
                  ip).to_bytes]))
    ∧ (∀ (cache2 : List (IpAddress × ArpCacheEntry)) (now2 : Nat),
        cache2.lookup ip = none →
        getMacAddress cache2 iface now2 ip
          = (none, cache2,
             [EthernetFrame.new MacAddress.broadcast iface.mac_address
                EtherType.arp
                (ArpPacket.new_request iface.mac_address iface.ip_address
                  ip).to_bytes])) := by
  have hw : wsub64 (t0 + t) t0 = t := wsub64_elapsed t0 t hbound
  refine ⟨?_, ?_, ?_⟩
  · unfold getMacAddress
    rw [hlookup]
    simp only [hw]
    by_cases h : t < 300
    · simp [h]
    · simp [h]
  · intro h
    unfold getMacAddress
    rw [hlookup]
    simp [hw, Nat.not_lt.mpr h]
  · intro cache2 now2 hnone
    unfold getMacAddress
    rw [hnone]

/-- Witness for C6 at the spec's scenario S3 values: entry for 10.0.0.5
with MAC 02:00:00:00:00:05 inserted at time 0, looked up at 299 s. -/
theorem arp_get_mac_address_spec_witness :
    (([(⟨10, 0, 0, 5⟩, ⟨⟨0x02, 0, 0, 0, 0, 0x05⟩, 0⟩)] :
        List (IpAddress × ArpCacheEntry)).lookup ⟨10, 0, 0, 5⟩
      = some ⟨⟨0x02, 0, 0, 0, 0, 0x05⟩, 0⟩)
    ∧ ((getMacAddress [(⟨10, 0, 0, 5⟩, ⟨⟨0x02, 0, 0, 0, 0, 0x05⟩, 0⟩)]
          ⟨⟨0xAA, 0xBB, 0xCC, 0, 0, 1⟩, ⟨10, 0, 0, 1⟩⟩ (0 + 299) ⟨10, 0, 0, 5⟩).1
        = some ⟨0x02, 0, 0, 0, 0, 0x05⟩ ↔ 299 < 300) :=
  ⟨by decide,
    (arp_get_mac_address_spec
      [(⟨10, 0, 0, 5⟩, ⟨⟨0x02, 0, 0, 0, 0, 0x05⟩, 0⟩)]
      ⟨⟨0xAA, 0xBB, 0xCC, 0, 0, 1⟩, ⟨10, 0, 0, 1⟩⟩ ⟨10, 0, 0, 5⟩
      ⟨0x02, 0, 0, 0, 0, 0x05⟩ 0 299 (by decide) (by norm_num)).1⟩

/-! ## `task/mod.rs`

Tasks are shared (`Arc<RwLock<Task>>`) between the run queues, `current`
and the group lists; the embedding identifies each task by its id and
keeps the single authoritative copy in an association list `store`.  The
saved register context, stack and TLS block are machine state the
scheduling logic never inspects and are omitted.  `now` parameters stand
for the values `get_current_time()` (RDTSC) returns during a call. -/

/-- `enum TaskState`. -/
inductive TaskState
  | ready
  | running
  | blocked
  | terminated
  | suspended
deriving DecidableEq, Repr

/-- `enum TaskPriority` (`Low = 0, Normal = 1, High = 2`). -/
inductive TaskPriority
  | low
  | normal
  | high
deriving DecidableEq, Repr

/-- `struct TaskStatistics`. -/
structure TaskStatistics where
  created_at : Nat
  total_runtime : Nat
  context_switches : Nat
  last_scheduled : Option Nat
deriving DecidableEq, Repr

/-- `struct Task` (scheduling-relevant fields). -/
structure Task where
  id : Nat
  state : TaskState
  priority : TaskPriority
  quantum : Nat
  time_slice : Nat
  deadline : Option Nat
  group_id : Option Nat
  stats : TaskStatistics
  base_priority : TaskPriority
deriving DecidableEq, Repr

/-- `Task::new` (Ready, Normal priority, quantum and time slice 100). -/
def Task.new (id now : Nat) : Task where
  id := id
  state := .ready
  priority := .normal
  quantum := 100
  time_slice := 100
  deadline := none
  group_id := none
  stats := { created_at := now, total_runtime := 0, context_switches := 0,
             last_scheduled := none }
  base_priority := .normal

/-- `Task::with_priority` (only `priority` is overridden; `base_priority`
stays Normal). -/
def Task.with_priority (id now : Nat) (priority : TaskPriority) : Task :=
  { Task.new id now with priority := priority }

/-- `Task::reset_time_slice`. -/
def Task.reset_time_slice (t : Task) : Task := { t with time_slice := t.quantum }

/-- `Task::decrement_time_slice`: `fetch_sub(1)` (wrapping on `usize`)
returning whether the previous value was `<= 1`, paired with the updated
task. -/
def Task.decrement_time_slice (t : Task) : Bool × Task :=
  (t.time_slice ≤ 1, { t with time_slice := wsub64 t.time_slice 1 })

/-- `Task::boost_priority`. -/
def Task.boost_priority (t : Task) : Task :=
  if t.priority ≠ .high then
    { t with priority :=
        match t.priority with
        | .low => .normal
        | .normal => .high
        | .high => .high }
  else t

/-- `Task::suspend`. -/
def Task.suspend (t : Task) : Task :=
  if t.state ≠ .terminated then { t with state := .suspended } else t

/-- `Task::resume`. -/
def Task.resume (t : Task) : Task :=
  if t.state = .suspended then { t with state := .ready } else t

/-- `struct Scheduler`: `tasks: Vec<VecDeque<_>>` of length 3 (indices
0 = Low, 1 = Normal, 2 = High), the `current` slot and the group map, plus
the task store and the `NEXT_ID` counter of `Task::new`. -/
structure Scheduler where
  queue_low : List Nat
  queue_normal : List Nat
  queue_high : List Nat
  current : Option Nat
  task_groups : List (Nat × List Nat)
  store : List (Nat × Task)
  next_id : Nat
deriving DecidableEq, Repr

/-- `Scheduler::new`. -/
def Scheduler.new : Scheduler where
  queue_low := []
  queue_normal := []
  queue_high := []
  current := none
  task_groups := []
  store := []
  next_id := 0

/-- `self.tasks[priority as usize].push_back(task)`. -/
def Scheduler.pushQueue (s : Scheduler) (p : TaskPriority) (tid : Nat) : Scheduler :=
  match p with
  | .low => { s with queue_low := s.queue_low ++ [tid] }
  | .normal => { s with queue_normal := s.queue_normal ++ [tid] }
  | .high => { s with queue_high := s.queue_high ++ [tid] }

/-- Dereference a task id in the store. -/
def Scheduler.lookupTask (s : Scheduler) (tid : Nat) : Option Task :=
  s.store.lookup tid

/-- Mutate the stored task behind an id (a `task.write()` update). -/
def Scheduler.updateTask (s : Scheduler) (tid : Nat) (f : Task → Task) : Scheduler :=
  { s with store := s.store.map fun p => if p.1 = tid then (p.1, f p.2) else p }

/-- `Scheduler::spawn_with_priority`. -/
def Scheduler.spawn_with_priority (s : Scheduler) (now : Nat)
    (priority : TaskPriority) : Scheduler :=
  let id := s.next_id
  let task := Task.with_priority id now priority
  let s := { s with store := s.store ++ [(id, task)], next_id := id + 1 }
  s.pushQueue priority id

/-- `Scheduler::spawn`. -/
def Scheduler.spawn (s : Scheduler) (now : Nat) : Scheduler :=
  s.spawn_with_priority now .normal

/-- `Scheduler::spawn_with_deadline` (Normal queue). -/
def Scheduler.spawn_with_deadline (s : Scheduler) (now deadline : Nat) : Scheduler :=
  let id := s.next_id
  let task := { Task.new id now with deadline := some deadline }
  let s := { s with store := s.store ++ [(id, task)], next_id := id + 1 }
  s.pushQueue .normal id

/-- `task_groups.entry(g).or_insert_with(Vec::new).push(task)`. -/
def addToGroup (groups : List (Nat × List Nat)) (g tid : Nat) :
    List (Nat × List Nat) :=
  if (groups.lookup g).isSome then
    groups.map fun p => if p.1 = g then (p.1, p.2 ++ [tid]) else p
  else groups ++ [(g, [tid])]

/-- `Scheduler::spawn_in_group` (Normal queue, group list updated). -/
def Scheduler.spawn_in_group (s : Scheduler) (now group_id : Nat) : Scheduler :=
  let id := s.next_id
  let task := { Task.new id now with group_id := some group_id }
  let s := { s with store := s.store ++ [(id, task)], next_id := id + 1,
                    task_groups := addToGroup s.task_groups group_id id }
  s.pushQueue .normal id

/-- `Scheduler::suspend_group`: flip every member's state (queues are not
touched). -/
def Scheduler.suspend_group (s : Scheduler) (group_id : Nat) : Scheduler :=
  match s.task_groups.lookup group_id with
  | some ids => ids.foldl (fun s tid => s.updateTask tid Task.suspend) s
  | none => s

/-- `Scheduler::resume_group`. -/
def Scheduler.resume_group (s : Scheduler) (group_id : Nat) : Scheduler :=
  match s.task_groups.lookup group_id with
  | some ids => ids.foldl (fun s tid => s.updateTask tid Task.resume) s
  | none => s

/-- `Scheduler::schedule`, in source order: (1) accumulate the current
task's stats; (2) boost the priority of every queued task with an expired
deadline; (3) `fetch_sub` the current task's time slice and return it
unchanged when the previous value was `> 1` — the task's state is NOT
examined here; (4) otherwise take `current` and, unless Terminated or
Suspended, mark it Ready, reset its slice and requeue it; (5) pop the
highest-priority nonempty queue, mark the task Running, make it current.
(A `current` id that is missing from the store cannot arise from the API;
such a call degrades to "no current".) -/
def Scheduler.schedule (s : Scheduler) (now : Nat) : Scheduler × Option Nat :=
  let s := match s.current with
    | some cid => s.updateTask cid fun t =>
        let rt := match t.stats.last_scheduled with
          | some last => wadd64 t.stats.total_runtime (wsub64 now last)
          | none => t.stats.total_runtime
        let st := { t.stats with total_runtime := rt }
        let st := { st with context_switches := wadd64 st.context_switches 1 }
        { t with stats := st }
    | none => s
  let s := (s.queue_low ++ s.queue_normal ++ s.queue_high).foldl (fun s tid =>
      s.updateTask tid fun t =>
        match t.deadline with
        | some d => if d < now then t.boost_priority else t
        | none => t) s
  let dec : Bool × Scheduler := match s.current with
    | some cid =>
      match s.lookupTask cid with
      | some t => ((t.decrement_time_slice).1,
          s.updateTask cid fun t2 => (t2.decrement_time_slice).2)
      | none => (true, s)
    | none => (true, s)
  let expired := dec.1
  let s := dec.2
  if s.current.isSome && !expired then (s, s.current)
  else
    let s := match s.current with
      | some cid =>
        let taken := { s with current := none }
        match s.lookupTask cid with
        | some t =>
          if t.state ≠ .terminated ∧ t.state ≠ .suspended then
            (taken.updateTask cid fun t2 =>
              { t2 with state := .ready, time_slice := t2.quantum }).pushQueue
              t.priority cid
          else taken
        | none => taken
      | none => s
    match s.queue_high with
    | tid :: rest =>
      let s := { s with queue_high := rest }
      let s := s.updateTask tid fun t =>
        { t with state := .running,
                 stats := { t.stats with last_scheduled := some now } }
      ({ s with current := some tid }, some tid)
    | [] =>
      match s.queue_normal with
      | tid :: rest =>
        let s := { s with queue_normal := rest }
        let s := s.updateTask tid fun t =>
          { t with state := .running,
                   stats := { t.stats with last_scheduled := some now } }
        ({ s with current := some tid }, some tid)
      | [] =>
        match s.queue_low with
        | tid :: rest =>
          let s := { s with queue_low := rest }
          let s := s.updateTask tid fun t =>
            { t with state := .running,
                     stats := { t.stats with last_scheduled := some now } }
          ({ s with current := some tid }, some tid)
        | [] => (s, s.current)

/-- `Scheduler::block_current`: mark current Blocked, then `schedule()`
(whose return value is dropped). -/
def Scheduler.block_current (s : Scheduler) (now : Nat) : Scheduler :=
  let s := match s.current with
    | some cid => s.updateTask cid fun t => { t with state := .blocked }
    | none => s
  (s.schedule now).1

/-- `Scheduler::unblock_task`: read the task's priority, mark it Ready and
push it on that queue. -/
def Scheduler.unblock_task (s : Scheduler) (tid : Nat) : Scheduler :=
  match s.lookupTask tid with
  | some t =>
    let s := s.updateTask tid fun t2 => { t2 with state := .ready }
    s.pushQueue t.priority tid
  | none => s

/-- A task is neither Terminated nor Blocked nor Suspended. -/
def Task.runnableB (t : Task) : Bool :=
  !(t.state == .terminated) && !(t.state == .blocked) && !(t.state == .suspended)

/-- The ids referenced by `{current} ∪ queues[0..3]`. -/
def Scheduler.unionList (s : Scheduler) : List Nat :=
  (match s.current with | some cid => [cid] | none => []) ++
    s.queue_low ++ s.queue_normal ++ s.queue_high

/-- The claimed invariant, decidably: `{current} ∪ queues` consists of
stored tasks and contains a stored task exactly when it is neither
Terminated nor Blocked nor Suspended. -/
def Scheduler.invariantHolds (s : Scheduler) : Bool :=
  s.store.all (fun p => p.2.runnableB == s.unionList.contains p.1)
    && s.unionList.all fun tid => (s.store.lookup tid).isSome

/-- Claim C2 fails on the code (a code bug): spawn one task, schedule it,
then `block_current`.  `schedule()`'s time-slice short-circuit returns the
still-current task without looking at its state, so the Blocked task
remains in `current`: `{current} ∪ queues` then contains a Blocked task,
violating the invariant.  Independently, `suspend_group` flips members to
Suspended but leaves them sitting in their run queue, violating it again. -/
theorem scheduler_union_invariant_violated :
    (((Scheduler.new.spawn 0).schedule 1).1.block_current 2).invariantHolds = false
    ∧ (((Scheduler.new.spawn 0).schedule 1).1.block_current 2).current = some 0
    ∧ ((((Scheduler.new.spawn 0).schedule 1).1.block_current 2).lookupTask 0).map
        Task.state = some TaskState.blocked
    ∧ ((Scheduler.new.spawn_in_group 0 7).suspend_group 7).invariantHolds = false
    ∧ ((Scheduler.new.spawn_in_group 0 7).suspend_group 7).queue_normal = [0]
    ∧ (((Scheduler.new.spawn_in_group 0 7).suspend_group 7).lookupTask 0).map
        Task.state = some TaskState.suspended := by
  decide

/-- A scheduler whose current task is Blocked with 50 ticks of time slice
left (the state `block_current` creates when the slice is not exhausted). -/
def blockedCurrentState : Scheduler :=
  ⟨[], [], [], some 0, [],
    [(0, ⟨0, .blocked, .normal, 100, 50, none, none, ⟨0, 0, 0, some 0⟩, .normal⟩)], 1⟩

/-- A scheduler whose current task is Running with exactly 1 tick of time
slice left (nonzero, so the claim says it must be returned unchanged). -/
def runningSliceOneState : Scheduler :=
  ⟨[], [], [], some 0, [],
    [(0, ⟨0, .running, .normal, 100, 1, none, none, ⟨0, 0, 0, some 0⟩, .normal⟩)], 1⟩

/-- Claim C4 fails on the code (a code bug).  First: with a Blocked
current task and time slice 50, `schedule()` still short-circuits and
returns the Blocked task (the code never checks `state == Running`).
Second: with a Running current task and time slice 1 (> 0), `schedule()`
does not return it unchanged: `fetch_sub` reports expiry at a previous
value of 1, so the task is requeued with its slice reset to the quantum
(100). -/
theorem schedule_short_circuit_ignores_running_state :
    ((blockedCurrentState.schedule 5).2 = some 0
      ∧ (blockedCurrentState.schedule 5).1.current = some 0
      ∧ ((blockedCurrentState.schedule 5).1.lookupTask 0).map Task.state
          = some TaskState.blocked)
    ∧ ((runningSliceOneState.schedule 5).2 = some 0
      ∧ ((runningSliceOneState.schedule 5).1.lookupTask 0).map Task.time_slice
          = some 100) := by
  decide

/-! ## `memory/mod.rs` -/

/-- The memory-map region tags the frame allocator distinguishes: the code
filters on `MemoryRegionType::Usable` and ignores every other variant,
which this embedding collapses to representatives. -/
inductive MemoryRegionType
  | usable
  | reserved
  | kernelCode
deriving DecidableEq, Repr

/-- A boot memory-map region (`{start_addr, end_addr, region_type}`). -/
structure MemoryRegion where
  start_addr : Nat
  end_addr : Nat
  region_type : MemoryRegionType
deriving DecidableEq, Repr

/-- The frames one region contributes: `(start..end).step_by(4096)`
followed by `PhysFrame::containing_address` (align down to 4 KiB). -/
def regionFrames (r : MemoryRegion) : List Nat :=
  (List.range ((r.end_addr - r.start_addr + 4095) / 4096)).map
    fun k => (r.start_addr + 4096 * k) / 4096 * 4096

/-- `BootInfoFrameAllocator::usable_frames`: filter the Usable regions,
step through each by 4 KiB, align each address down to its frame. -/
def usableFrames (memory_map : List MemoryRegion) : List Nat :=
  (memory_map.filter fun r => r.region_type == .usable).flatMap regionFrames

/-- `struct BootInfoFrameAllocator` (the `'static` memory map, the `next`
counter and the lazily computed total). -/
structure BootInfoFrameAllocator where
  memory_map : List MemoryRegion
  next : Nat
  total_frames : Option Nat
deriving DecidableEq, Repr

/-- `BootInfoFrameAllocator::init`. -/
def BootInfoFrameAllocator.init (memory_map : List MemoryRegion) :
    BootInfoFrameAllocator :=
  ⟨memory_map, 0, none⟩

/-- `BootInfoFrameAllocator::count_total_frames`. -/
def BootInfoFrameAllocator.count_total_frames (a : BootInfoFrameAllocator) : Nat :=
  (usableFrames a.memory_map).length

/-- `BootInfoFrameAllocator::allocate_frame`: lazily cache the total,
refuse when `next` reaches it, otherwise serve `usable_frames().nth(next)`
and advance `next`. -/
def BootInfoFrameAllocator.allocate_frame (a : BootInfoFrameAllocator) :
    Option Nat × BootInfoFrameAllocator :=
  let total := match a.total_frames with
    | some t => t
    | none => a.count_total_frames
  let a := { a with total_frames := some total }
  if total ≤ a.next then (none, a)
  else ((usableFrames a.memory_map)[a.next]?, { a with next := a.next + 1 })

/-- The allocator state after `n` calls to `allocate_frame`. -/
def allocSteps (a : BootInfoFrameAllocator) : Nat → BootInfoFrameAllocator
  | 0 => a
  | n + 1 => ((allocSteps a n).allocate_frame).2

/-- The result of the `n`-th call (counting from zero) to `allocate_frame`
on a freshly initialized allocator. -/
def nthAllocation (memory_map : List MemoryRegion) (n : Nat) : Option Nat :=
  ((allocSteps (BootInfoFrameAllocator.init memory_map) n).allocate_frame).1

/-! ### `MemorySpace::load_program` -/

/-- `Mapper::unmap(page)` on the page-table view: drop the entry. -/
def removePage (table : List (Nat × Nat)) (page : Nat) : List (Nat × Nat) :=
  table.filter fun q => q.1 ≠ page

/-- The per-page loop of `MemorySpace::load_program`, on the page table
viewed as a page ↦ frame map.  `i` is the chunk index, `remaining` the
number of chunks still to map, `allocated` the `allocated_frames` vector.
Each iteration: allocate a frame (`?` propagates failure with NO cleanup),
record it in `allocated`, `map_to` (fails on an existing mapping, and that
error path unmaps everything in `allocated`), then `translate_addr` (`?`,
again without cleanup) and copy the chunk (byte contents not modelled). -/
def loadProgramLoop (i remaining : Nat) (table : List (Nat × Nat))
    (fa : BootInfoFrameAllocator) (allocated : List (Nat × Nat)) :
    Except String Unit × List (Nat × Nat) × BootInfoFrameAllocator :=
  match remaining with
  | 0 => (.ok (), table, fa)
  | remaining + 1 =>
    let page := 0x400000 + i * 4096
    let r := fa.allocate_frame
    match r.1 with
    | none => (.error "Failed to allocate frame for program", table, r.2)
    | some frame =>
      let allocated := allocated ++ [(page, frame)]
      if (table.lookup page).isSome then
        (.error "Failed to map page",
          allocated.foldl (fun t q => removePage t q.1) table, r.2)
      else
        let table := table ++ [(page, frame)]
        match table.lookup page with
        | none => (.error "Failed to translate virtual address", table, r.2)
        | some _ => loadProgramLoop (i + 1) remaining table r.2 allocated

/-- `MemorySpace::load_program` over a program of `programLen` bytes:
split into 4 KiB chunks, map them at `PROGRAM_BASE = 0x400000` onward.
Returns the result, the page table and the allocator after the call. -/
def MemorySpace.load_program (table : List (Nat × Nat))
    (fa : BootInfoFrameAllocator) (programLen : Nat) :
    Except String Unit × List (Nat × Nat) × BootInfoFrameAllocator :=
  loadProgramLoop 0 ((programLen + 4095) / 4096) table fa []

/-- Claim C5 fails on the code (a code bug): loading an 8192-byte program
with only one free frame maps the first page, then hits frame exhaustion
on the second and propagates the error with `?` — skipping the cleanup
that only the `map_to`-error branch performs — so the failed call leaves
page 0x400000 mapped. -/
theorem load_program_alloc_failure_leaves_mapping :
    (MemorySpace.load_program []
        (BootInfoFrameAllocator.init [⟨0, 4096, .usable⟩]) 8192).1
      = .error "Failed to allocate frame for program"
    ∧ (MemorySpace.load_program []
        (BootInfoFrameAllocator.init [⟨0, 4096, .usable⟩]) 8192).2.1
      = [(0x400000, 0)] :=
  ⟨rfl, rfl⟩

/-- Counterexample to claim C8 as stated: on the memory map with two
(overlapping) Usable regions `[0, 4096)` and `[0, 4096)`, the 0th and the
1st calls to `allocate_frame` both return frame 0 — a frame is handed out
twice. -/
theorem frame_allocator_duplicate_frame :
    nthAllocation [⟨0, 4096, .usable⟩, ⟨0, 4096, .usable⟩] 0 = some 0
    ∧ nthAllocation [⟨0, 4096, .usable⟩, ⟨0, 4096, .usable⟩] 1 = some 0 := by
  decide

theorem allocate_frame_eq (a : BootInfoFrameAllocator)
    (h : a.total_frames = none
      ∨ a.total_frames = some (usableFrames a.memory_map).length) :
    a.allocate_frame
      = if (usableFrames a.memory_map).length ≤ a.next then
          (none, ⟨a.memory_map, a.next, some (usableFrames a.memory_map).length⟩)
        else ((usableFrames a.memory_map)[a.next]?,
          ⟨a.memory_map, a.next + 1, some (usableFrames a.memory_map).length⟩) := by
  rcases h with h | h <;>
    simp [BootInfoFrameAllocator.allocate_frame,
      BootInfoFrameAllocator.count_total_frames, h]

theorem allocSteps_spec (memory_map : List MemoryRegion) (n : Nat) :
    (allocSteps (BootInfoFrameAllocator.init memory_map) n).memory_map = memory_map
    ∧ (allocSteps (BootInfoFrameAllocator.init memory_map) n).next
        = min n (usableFrames memory_map).length
    ∧ ((allocSteps (BootInfoFrameAllocator.init memory_map) n).total_frames = none
      ∨ (allocSteps (BootInfoFrameAllocator.init memory_map) n).total_frames
          = some (usableFrames memory_map).length) := by
  induction n with
  | zero => exact ⟨rfl, by simp [allocSteps, BootInfoFrameAllocator.init], Or.inl rfl⟩
  | succ n ih =>
    obtain ⟨hm, hn, ht⟩ := ih
    rw [allocSteps, allocate_frame_eq _ (by rw [hm]; exact ht)]
    rw [hm, hn]
    by_cases h : (usableFrames memory_map).length ≤ min n (usableFrames memory_map).length
    · rw [if_pos h]
      exact ⟨rfl, by dsimp only; omega, Or.inr rfl⟩
    · rw [if_neg h]
      exact ⟨rfl, by dsimp only; omega, Or.inr rfl⟩

theorem nthAllocation_eq (memory_map : List MemoryRegion) (n : Nat) :
    nthAllocation memory_map n = (usableFrames memory_map)[n]? := by
  unfold nthAllocation
  obtain ⟨hm, hn, ht⟩ := allocSteps_spec memory_map n
  rw [allocate_frame_eq _ (by rw [hm]; exact ht), hm, hn]
  by_cases h : (usableFrames memory_map).length ≤ n
  · rw [if_pos (by omega)]
    exact (List.getElem?_eq_none h).symm
  · rw [if_neg (by omega)]
    simp only [Nat.min_eq_left (by omega : n ≤ (usableFrames memory_map).length)]

theorem regionFrames_mem_bounds (r : MemoryRegion) (hal : r.start_addr % 4096 = 0)
    (x : Nat) (hx : x ∈ regionFrames r) : r.start_addr ≤ x ∧ x < r.end_addr := by
  unfold regionFrames at hx
  obtain ⟨k, hk, rfl⟩ := List.mem_map.mp hx
  have hk2 : k < (r.end_addr - r.start_addr + 4095) / 4096 := List.mem_range.mp hk
  have hdiv := Nat.div_mul_le_self (r.end_addr - r.start_addr + 4095) 4096
  omega

theorem regionFrames_nodup (r : MemoryRegion) (hal : r.start_addr % 4096 = 0) :
    (regionFrames r).Nodup := by
  unfold regionFrames
  refine List.Nodup.map_on ?_ (List.nodup_range _)
  intro k1 h1 k2 h2 heq
  omega

theorem usableFrames_nodup (memory_map : List MemoryRegion)
    (hal : ∀ r ∈ memory_map, r.region_type = .usable → r.start_addr % 4096 = 0)
    (hdisj : memory_map.Pairwise fun r1 r2 => r1.region_type = .usable →
      r2.region_type = .usable →
      r1.end_addr ≤ r2.start_addr ∨ r2.end_addr ≤ r1.start_addr) :
    (usableFrames memory_map).Nodup := by
  unfold usableFrames
  rw [List.nodup_flatMap]
  constructor
  · intro r hr
    have hmem := (List.mem_filter.mp hr).1
    have hru : r.region_type = .usable := by
      simpa using (List.mem_filter.mp hr).2
    exact regionFrames_nodup r (hal r hmem hru)
  · refine List.Pairwise.imp_of_mem ?_ (List.Pairwise.filter _ hdisj)
    intro r1 r2 h1 h2 himp
    have h1m := (List.mem_filter.mp h1).1
    have h2m := (List.mem_filter.mp h2).1
    have h1u : r1.region_type = .usable := by simpa using (List.mem_filter.mp h1).2
    have h2u : r2.region_type = .usable := by simpa using (List.mem_filter.mp h2).2
    have hd := himp h1u h2u
    intro x hx1 hx2
    have b1 := regionFrames_mem_bounds r1 (hal r1 h1m h1u) x hx1
    have b2 := regionFrames_mem_bounds r2 (hal r2 h2m h2u) x hx2
    omega

/-- Claim C8 as amended: on every boot memory map, the `n`-th call to
`allocate_frame` returns exactly the `n`-th frame of the Usable-region
enumeration (stepping by 4 KiB), and returns `none` precisely when `n` is
at least the total count of such frames; and — provided the Usable regions
are pairwise disjoint and 4 KiB-aligned, as boot memory maps are — no
frame is ever handed out twice (the counterexample shows overlapping
regions defeat the unconditional claim). -/
theorem frame_allocator_spec (memory_map : List MemoryRegion) (n : Nat) :
    nthAllocation memory_map n = (usableFrames memory_map)[n]?
    ∧ (nthAllocation memory_map n = none ↔ (usableFrames memory_map).length ≤ n)
    ∧ ((∀ r ∈ memory_map, r.region_type = .usable → r.start_addr % 4096 = 0) →
      memory_map.Pairwise (fun r1 r2 => r1.region_type = .usable →
        r2.region_type = .usable →
        r1.end_addr ≤ r2.start_addr ∨ r2.end_addr ≤ r1.start_addr) →
      ∀ m k fm fk, nthAllocation memory_map m = some fm →
        nthAllocation memory_map k = some fk → m ≠ k → fm ≠ fk) := by
  refine ⟨nthAllocation_eq memory_map n, ?_, ?_⟩
  · rw [nthAllocation_eq]
    exact List.getElem?_eq_none_iff
  · intro hal hdisj m k fm fk hm hk hmk heq
    subst heq
    rw [nthAllocation_eq] at hm hk
    have hlt : m < (usableFrames memory_map).length :=
      (List.getElem?_eq_some_iff.mp hm).1
    exact hmk (List.getElem?_inj hlt (usableFrames_nodup memory_map hal hdisj)
      (hm.trans hk.symm))

/-- Witness for the amended C8 on the single Usable region `[0, 8192)`:
call 0 yields frame 0, call 2 (past the two-frame count) yields nothing,
and calls 0 and 1 yield distinct frames (0 and 4096). -/
theorem frame_allocator_spec_witness :
    nthAllocation [⟨0, 8192, .usable⟩] 0 = some 0
    ∧ nthAllocation [⟨0, 8192, .usable⟩] 1 = some 4096
    ∧ nthAllocation [⟨0, 8192, .usable⟩] 2 = none
    ∧ (0 : Nat) ≠ 4096 :=
  ⟨by decide, by decide, by decide,
    (frame_allocator_spec [⟨0, 8192, .usable⟩] 0).2.2 (by decide) (by decide)
      0 1 0 4096 (by decide) (by decide) (by decide)⟩

end RustOS
